import Mathlib

/-!
A shallow embedding of the FoodShare backend core: the request lifecycle
engine (backend/controllers/requestController.js together with
backend/models/Request.js and the Food model) and the chat engine (the
Chat/Message mongoose model and the Socket.IO send-message handler in
backend/config/socket.js).  Statuses that mongoose constrains by an enum
become inductive types; ids are natural numbers; mongoose maps are
association lists; save returns Except to model validation and pre-save
hook failures.
-/

namespace FoodShare

/-- Request status enum from models/Request.js. -/
inductive ReqStatus
  | pending
  | accepted
  | rejected
  | cancelled
  | completed
deriving DecidableEq

/-- Food listing status enum from models/Food.js. -/
inductive FoodStatus
  | available
  | requested
  | claimed
  | expired
  | cancelled
deriving DecidableEq

/-- A request counts as active when pending or accepted, as in the
controller query with status in pending, accepted. -/
def statusActive : ReqStatus → Bool
  | ReqStatus.pending => true
  | ReqStatus.accepted => true
  | _ => false

/-- Accepted status test used for counting accepted requests. -/
def statusAccepted : ReqStatus → Bool
  | ReqStatus.accepted => true
  | _ => false

/-- The fields of a Food listing that the request lifecycle touches:
donor, status, availability.isAvailable and isActive. -/
structure Food where
  donor : Nat
  status : FoodStatus
  isAvailable : Bool
  isActive : Bool
deriving DecidableEq

/-- The two assignments of the accepted branch: status claimed,
availability.isAvailable false. -/
def setClaimed (f : Food) : Food :=
  { f with status := FoodStatus.claimed, isAvailable := false }

/-- The two assignments of the reversion branch: status available,
availability.isAvailable true. -/
def setAvailable (f : Food) : Food :=
  { f with status := FoodStatus.available, isAvailable := true }

/-- The assignment of createRequest: status requested. -/
def setRequested (f : Food) : Food :=
  { f with status := FoodStatus.requested }

/-- requestedQuantity subdocument of a Request. -/
structure Quantity where
  amount : Nat
  unit : String
deriving DecidableEq

/-- donorResponse subdocument of a Request. -/
structure DonorResponse where
  message : String
  respondedAt : Nat
  proposedPickupTime : Option Nat
deriving DecidableEq

/-- cancellation subdocument of a Request. -/
structure Cancellation where
  reason : String
  cancelledBy : String
  cancelledAt : Nat
deriving DecidableEq

/-- actualPickup subdocument of a Request. -/
structure ActualPickup where
  pickedUpAt : Nat
  actualQuantity : Quantity
  notes : String
deriving DecidableEq

/-- A claim request document from models/Request.js. -/
structure Request where
  id : Nat
  foodItem : Nat
  donor : Nat
  receiver : Nat
  status : ReqStatus := ReqStatus.pending
  message : Option String := none
  requestedQuantity : Quantity
  pickupPreferredTime : Nat
  donorResponse : Option DonorResponse := none
  cancellation : Option Cancellation := none
  actualPickup : Option ActualPickup := none
  isActive : Bool := true
deriving DecidableEq

/-- requestSchema.methods.accept: set status to accepted and record the
donor response; no check of the current status is performed. -/
def Request.accept (r : Request) (message : Option String)
    (proposedPickupTime : Option Nat) (now : Nat) : Request :=
  { r with
    status := ReqStatus.accepted,
    donorResponse := some {
      message := message.getD "Request accepted",
      respondedAt := now,
      proposedPickupTime := some (proposedPickupTime.getD r.pickupPreferredTime) } }

/-- requestSchema.methods.reject: set status to rejected and record the
donor response. -/
def Request.reject (r : Request) (message : Option String) (now : Nat) : Request :=
  { r with
    status := ReqStatus.rejected,
    donorResponse := some {
      message := message.getD "Request rejected",
      respondedAt := now,
      proposedPickupTime := none } }

/-- requestSchema.methods.cancel: set status to cancelled and record the
cancellation. -/
def Request.cancel (r : Request) (reason : Option String)
    (cancelledBy : Option String) (now : Nat) : Request :=
  { r with
    status := ReqStatus.cancelled,
    cancellation := some {
      reason := reason.getD "Request cancelled",
      cancelledBy := cancelledBy.getD "receiver",
      cancelledAt := now } }

/-- requestSchema.methods.markPickedUp: set status to completed and record
the actual pickup. -/
def Request.markPickedUp (r : Request) (actualQuantity : Option Quantity)
    (notes : Option String) (now : Nat) : Request :=
  { r with
    status := ReqStatus.completed,
    actualPickup := some {
      pickedUpAt := now,
      actualQuantity := actualQuantity.getD r.requestedQuantity,
      notes := notes.getD "" } }

/-- The persisted state seen by the request routes: the food collection as
an association list keyed by id, the request collection, and the id
counter for newly created requests. -/
structure RState where
  foods : List (Nat × Food)
  requests : List Request
  nextReqId : Nat := 0
deriving DecidableEq

/-- Food.findById. -/
def lookupFood : List (Nat × Food) → Nat → Option Food
  | [], _ => none
  | (k, f) :: rest, fid => if k = fid then some f else lookupFood rest fid

/-- Saving a modification of the food document found by id. -/
def updateFood : List (Nat × Food) → Nat → (Food → Food) → List (Nat × Food)
  | [], _, _ => []
  | (k, f) :: rest, fid, g =>
    if k = fid then (k, g f) :: rest else (k, f) :: updateFood rest fid g

/-- Request.findById. -/
def findReq : List Request → Nat → Option Request
  | [], _ => none
  | r :: rs, rid => if r.id = rid then some r else findReq rs rid

/-- Saving a modification of the request document found by id. -/
def setReq : List Request → Nat → Request → List Request
  | [], _, _ => []
  | r :: rs, rid, r' => if r.id = rid then r' :: rs else r :: setReq rs rid r'

/-- The predicate of the controller count query: requests on the given
food item whose status is pending or accepted. -/
def isActiveReq (fid : Nat) (r : Request) : Bool :=
  (r.foodItem == fid) && statusActive r.status

/-- Count of active (pending or accepted) requests on a food item, as in
Request.find with a status $in filter followed by countDocuments. -/
def activeCountL (rs : List Request) (fid : Nat) : Nat :=
  rs.countP (isActiveReq fid)

/-- Count of requests on a food item whose status is accepted. -/
def acceptedCountL (rs : List Request) (fid : Nat) : Nat :=
  rs.countP (fun r => (r.foodItem == fid) && statusAccepted r.status)

/-- HTTP outcome of a route handler: success with a status code, or an
AppError with a status code and message. -/
inductive ApiOut
  | ok (code : Nat)
  | err (code : Nat) (msg : String)
deriving DecidableEq

/-- createRequest from requestController.js: reject with 400 when the food
is missing, inactive or not available; otherwise create a pending request
recording the donor from the listing, mark the food requested, and answer
201. -/
def createRequest (s : RState) (receiverId foodItemId : Nat)
    (message : Option String) (qty : Quantity) (pickupTime : Nat) :
    RState × ApiOut :=
  match lookupFood s.foods foodItemId with
  | none => (s, ApiOut.err 400 "Food item not available")
  | some food =>
    if food.isActive && decide (food.status = FoodStatus.available) then
      let newReq : Request := {
        id := s.nextReqId,
        foodItem := foodItemId,
        donor := food.donor,
        receiver := receiverId,
        message := message,
        requestedQuantity := qty,
        pickupPreferredTime := pickupTime }
      let fs := updateFood s.foods foodItemId setRequested
      ({ s with requests := s.requests ++ [newReq], nextReqId := s.nextReqId + 1, foods := fs },
        ApiOut.ok 201)
    else (s, ApiOut.err 400 "Food item not available")

/-- The food side effect of the accepted branch of updateStatus: the food
becomes claimed and unavailable.  A missing food document makes the
handler throw after the request was already saved, surfaced as a 500. -/
def applyAccept (s : RState) (rid : Nat) (r' : Request) : RState × ApiOut :=
  let s1 : RState := { s with requests := setReq s.requests rid r' }
  match lookupFood s1.foods r'.foodItem with
  | none => (s1, ApiOut.err 500 "Internal server error")
  | some _ =>
    let fs := updateFood s1.foods r'.foodItem setClaimed
    ({ s1 with foods := fs }, ApiOut.ok 200)

/-- The food side effect of the rejected and cancelled branches of
updateStatus: recount the active requests on the food and revert it to
available exactly when none remain. -/
def applyRevert (s : RState) (rid : Nat) (r' : Request) : RState × ApiOut :=
  let s1 : RState := { s with requests := setReq s.requests rid r' }
  match lookupFood s1.foods r'.foodItem with
  | none => (s1, ApiOut.err 500 "Internal server error")
  | some _ =>
    if activeCountL s1.requests r'.foodItem = 0 then
      let fs := updateFood s1.foods r'.foodItem setAvailable
      ({ s1 with foods := fs }, ApiOut.ok 200)
    else (s1, ApiOut.ok 200)

/-- updateStatus from requestController.js: branch on the requested status
string, check only who the caller is (donor or receiver), apply the
request method, then apply the food side effect.  No branch checks the
current status of the request. -/
def updateStatus (s : RState) (callerId rid : Nat) (status : String)
    (message : Option String) (now : Nat) : RState × ApiOut :=
  match findReq s.requests rid with
  | none => (s, ApiOut.err 404 "Request not found")
  | some r =>
    let isDonor : Bool := callerId == r.donor
    let isReceiver : Bool := callerId == r.receiver
    if status = "accepted" then
      if !isDonor then (s, ApiOut.err 403 "Only donor can accept")
      else applyAccept s rid (Request.accept r message none now)
    else if status = "rejected" then
      if !isDonor then (s, ApiOut.err 403 "Only donor can reject")
      else applyRevert s rid (Request.reject r message now)
    else if status = "cancelled" then
      if !isReceiver && !isDonor then (s, ApiOut.err 403 "Not authorized to cancel")
      else applyRevert s rid
        (Request.cancel r message (some (if isDonor then "donor" else "receiver")) now)
    else if status = "completed" then
      if !isDonor then (s, ApiOut.err 403 "Only donor can complete")
      else ({ s with requests := setReq s.requests rid (Request.markPickedUp r none none now) },
        ApiOut.ok 200)
    else (s, ApiOut.err 400 "Invalid status")

/-- A request lifecycle operation: a receiver creating a request, or a
caller updating the status of a request, exactly the two mutating routes
of routes/requests.js. -/
inductive Op
  | createReq (receiverId foodItemId : Nat) (message : Option String)
      (qty : Quantity) (pickupTime : Nat)
  | setStatus (callerId rid : Nat) (status : String) (message : Option String)
      (now : Nat)
deriving DecidableEq

/-- Apply one operation to the persisted state, discarding the HTTP
response. -/
def applyOp (s : RState) : Op → RState
  | Op.createReq a b c d e => (createRequest s a b c d e).1
  | Op.setStatus a b c d e => (updateStatus s a b c d e).1

/-- Run a sequence of operations. -/
def run (s : RState) (ops : List Op) : RState := ops.foldl applyOp s

/-- A step is guarded when an accepted update only ever hits a pending
request; this is the precondition that the specification assumes for
accept and the controller omits. -/
def okStep (s : RState) : Op → Bool
  | Op.setStatus _ rid status _ _ =>
    if status = "accepted" then
      match findReq s.requests rid with
      | some r => decide (r.status = ReqStatus.pending)
      | none => true
    else true
  | _ => true

/-- A trace is guarded when every step is guarded in the state where it
executes. -/
def okTrace : RState → List Op → Bool
  | _, [] => true
  | s, op :: ops => okStep s op && okTrace (applyOp s op) ops

/-- The inductive food/request consistency invariant: every food item has
at most one active request; an available food item, and any food id with
no food document, has none. -/
def FoodInv (s : RState) : Prop :=
  ∀ fid,
    activeCountL s.requests fid ≤ 1 ∧
    (∀ food, lookupFood s.foods fid = some food →
      food.status = FoodStatus.available → activeCountL s.requests fid = 0) ∧
    (lookupFood s.foods fid = none → activeCountL s.requests fid = 0)

/-- Characters trimmed by the mongoose trim setter on string paths, which
uses the JavaScript String trim over whitespace characters. -/
def jsWhitespace (ch : Char) : Bool :=
  (ch == ' ') || (ch == '\t') || (ch == '\n') || (ch == '\r')

/-- The trim setter applied to message content before it is stored. -/
def jsTrim (s : String) : String :=
  String.mk (((s.data.dropWhile jsWhitespace).reverse.dropWhile jsWhitespace).reverse)

/-- content.substring with start 0, used for the notification preview. -/
def jsTake (n : Nat) (s : String) : String :=
  String.mk (s.data.take n)

/-- A message subdocument from the messageSchema in models/Chat.js. -/
structure Message where
  sender : Nat
  content : String
  messageType : String := "text"
  mediaUrl : Option String := none
  mediaCaption : Option String := none
  isRead : Bool := false
  readAt : Option Nat := none
  timestamp : Nat
deriving DecidableEq

/-- Validation of one message on save: content is required (an empty
stored string fails), bounded by 1000 characters, and messageType must
belong to the schema enum. -/
def msgValid (m : Message) : Bool :=
  (!(m.content == "")) && decide (m.content.length ≤ 1000) &&
    ((m.messageType == "text") || (m.messageType == "image") ||
     (m.messageType == "location") || (m.messageType == "file"))

/-- A chat document from chatSchema in models/Chat.js.  The unreadCount
map becomes an association list from user id to count; foodItem is Option
because the socket handler constructs chats without it. -/
structure Chat where
  id : Nat
  participants : List Nat
  foodItem : Option Nat
  messages : List Message := []
  lastMessage : Option Message := none
  unreadCount : List (Nat × Nat) := []
  isActive : Bool := true
  lastActivity : Nat
deriving DecidableEq

/-- Map.get with the JavaScript undefined-to-zero fallback used at every
read of unreadCount.  A Map never holds a key twice, so reading the first
matching entry is exact. -/
def mapGet : List (Nat × Nat) → Nat → Nat
  | [], _ => 0
  | p :: m, k => if p.1 = k then p.2 else mapGet m k

/-- Map.set: overwrite the entry of an existing key in place, or append a
new entry, preserving insertion order as a JavaScript Map does. -/
def mapSet : List (Nat × Nat) → Nat → Nat → List (Nat × Nat)
  | [], k, v => [(k, v)]
  | p :: m, k, v => if p.1 = k then (k, v) :: m else p :: mapSet m k v

/-- Deduplication by first occurrence, the behaviour of building a
JavaScript Set from the participants array and spreading it back. -/
def jsDedupAux : List Nat → List Nat → List Nat
  | _, [] => []
  | seen, x :: xs =>
    if seen.contains x then jsDedupAux seen xs
    else x :: jsDedupAux (seen ++ [x]) xs

/-- Spread of a Set built from a list keeps the first occurrence of every
element in order. -/
def jsDedup (ps : List Nat) : List Nat := jsDedupAux [] ps

/-- Document validation on save: foodItem is required, and every message
subdocument (including the denormalized lastMessage) must be valid. -/
def chatValidate (c : Chat) : Bool :=
  c.foodItem.isSome && c.messages.all msgValid &&
    (match c.lastMessage with
     | some m => msgValid m
     | none => true)

/-- The pre-save hook of chatSchema: reject fewer than two participants,
then silently deduplicate the participant list when it changed length.
The length check runs before deduplication. -/
def preSave (c : Chat) : Except String Chat :=
  if c.participants.length < 2 then
    Except.error "Chat must have at least 2 participants"
  else
    let u := jsDedup c.participants
    if u.length ≠ c.participants.length then Except.ok { c with participants := u }
    else Except.ok c

/-- chat.save: mongoose validation runs first, then the pre-save hook. -/
def saveChat (c : Chat) : Except String Chat :=
  if chatValidate c then preSave c else Except.error "ValidationError"

/-- chatSchema.methods.getUnreadCount. -/
def Chat.getUnreadCount (c : Chat) (userId : Nat) : Nat :=
  mapGet c.unreadCount userId

/-- chatSchema.methods.isParticipant. -/
def Chat.isParticipant (c : Chat) (userId : Nat) : Bool :=
  c.participants.any (fun p => p == userId)

/-- The message document addMessage builds, with schema defaults and the
trim setter applied by the mongoose cast. -/
def addMsgDoc (senderId : Nat) (content messageType : String)
    (mediaUrl mediaCaption : Option String) (now : Nat) : Message :=
  { sender := senderId,
    content := jsTrim content,
    messageType := messageType,
    mediaUrl := mediaUrl,
    mediaCaption := mediaCaption,
    isRead := false,
    readAt := none,
    timestamp := now }

/-- Unread counter update of addMessage: walk the participants and bump
every entry other than the sender. -/
def incUnread (unread : List (Nat × Nat)) (senderId : Nat)
    (ps : List Nat) : List (Nat × Nat) :=
  ps.foldl
    (fun acc p => if p ≠ senderId then mapSet acc p (mapGet acc p + 1) else acc)
    unread

/-- The chat document addMessage submits to save. -/
def addMessageDoc (c : Chat) (senderId : Nat) (content messageType : String)
    (mediaUrl mediaCaption : Option String) (now : Nat) : Chat :=
  { c with
    messages := c.messages ++ [addMsgDoc senderId content messageType mediaUrl mediaCaption now],
    lastMessage := some (addMsgDoc senderId content messageType mediaUrl mediaCaption now),
    lastActivity := now,
    unreadCount := incUnread c.unreadCount senderId c.participants }

/-- chatSchema.methods.addMessage: push the message, denormalize it into
lastMessage, bump lastActivity, increment the unread counter of every
participant other than the sender, then save. -/
def Chat.addMessage (c : Chat) (senderId : Nat) (content : String)
    (messageType : String) (mediaUrl mediaCaption : Option String)
    (now : Nat) : Except String Chat :=
  saveChat (addMessageDoc c senderId content messageType mediaUrl mediaCaption now)

/-- One pass of markAsRead over a message: messages not yet read and not
authored by the reader become read with a timestamp. -/
def markMsg (userId now : Nat) (m : Message) : Message :=
  if m.isRead = false ∧ m.sender ≠ userId then
    { m with isRead := true, readAt := some now }
  else m

/-- The chat document markAsRead submits to save. -/
def markAsReadDoc (c : Chat) (userId now : Nat) : Chat :=
  { c with
    messages := c.messages.map (markMsg userId now),
    unreadCount := mapSet c.unreadCount userId 0 }

/-- chatSchema.methods.markAsRead: mark foreign unread messages as read,
zero the unread counter of the reader, then save. -/
def Chat.markAsRead (c : Chat) (userId now : Nat) : Except String Chat :=
  saveChat (markAsReadDoc c userId now)

/-- chatSchema.statics.findOrCreateChat: look a chat up by the pair of
participants (an $all query) and the food item; create and save a fresh
chat only when none exists. -/
def findOrCreateChat (chats : List Chat) (p1 p2 fid : Nat) (newId now : Nat) :
    Except String (List Chat × Chat) :=
  match chats.find? (fun c =>
      c.participants.contains p1 && c.participants.contains p2 &&
      (c.foodItem == some fid)) with
  | some c => Except.ok (chats, c)
  | none =>
    let c : Chat := {
      id := newId,
      participants := [p1, p2],
      foodItem := some fid,
      messages := [],
      lastMessage := none,
      unreadCount := [],
      isActive := true,
      lastActivity := now }
    (saveChat c).map (fun c2 => (chats ++ [c2], c2))

/-- The authenticated user attached to a socket connection. -/
structure UserInfo where
  id : Nat
  name : String
  avatar : String
deriving DecidableEq

/-- The chat collection as the socket handler sees it, with an id counter
for chats the handler itself creates. -/
structure SState where
  chats : List Chat
  nextChatId : Nat := 0
deriving DecidableEq

/-- Events the send-message handler emits.  Rooms are named by an id: the
chat room by the incoming chatId, the personal room by the user id. -/
inductive SockEvent
  | newMessage (room chatId senderId : Nat) (senderName senderAvatar : String)
      (content : String) (timestamp : Nat)
  | messageNotification (room chatId : Nat) (senderName preview : String)
  | messageError (msg : String)
deriving DecidableEq

/-- Chat.findById over the chat collection. -/
def findChat (chats : List Chat) (chatId : Nat) : Option Chat :=
  chats.find? (fun c => c.id == chatId)

/-- Persisting the save of the chat document found by id. -/
def setChat : List Chat → Nat → Chat → List Chat
  | [], _, _ => []
  | c :: cs, chatId, c' =>
    if c.id = chatId then c' :: cs else c :: setChat cs chatId c'

/-- The plain message object the handler pushes; the mongoose cast applies
the schema defaults and the trim setter to the stored copy. -/
def mkSockMsg (senderId : Nat) (content : String) (now : Nat) : Message :=
  { sender := senderId,
    content := jsTrim content,
    messageType := "text",
    mediaUrl := none,
    mediaCaption := none,
    isRead := false,
    readAt := none,
    timestamp := now }

/-- The send-message handler of backend/config/socket.js.  It looks the
chat up by id only; when absent it constructs a chat from the sender and
receiver ids directly, without a food item, and saves it.  It then pushes
a plain message object (never calling addMessage), saves, broadcasts
new-message to the room named by the incoming chatId with the public
sender fields, and emits a message-notification with a 50 character
preview to the personal room of the receiver.  Any failure is converted
into a single message-error back to the sender. -/
def sendMessage (s : SState) (user : UserInfo) (chatId : Nat)
    (content : String) (receiverId : Nat) (now : Nat) :
    SState × List SockEvent :=
  match findChat s.chats chatId with
  | none =>
    let c : Chat := {
      id := s.nextChatId,
      participants := [user.id, receiverId],
      foodItem := none,
      messages := [],
      lastMessage := none,
      unreadCount := [],
      isActive := true,
      lastActivity := now }
    match saveChat c with
    | Except.error _ => (s, [SockEvent.messageError "Failed to send message"])
    | Except.ok c1 =>
      match saveChat { c1 with messages := c1.messages ++ [mkSockMsg user.id content now] } with
      | Except.error _ =>
        ({ s with chats := s.chats ++ [c1], nextChatId := s.nextChatId + 1 },
          [SockEvent.messageError "Failed to send message"])
      | Except.ok c2 =>
        ({ s with chats := s.chats ++ [c2], nextChatId := s.nextChatId + 1 },
          [SockEvent.newMessage chatId chatId user.id user.name user.avatar content now,
           SockEvent.messageNotification receiverId chatId user.name (jsTake 50 content)])
  | some c =>
    match saveChat { c with messages := c.messages ++ [mkSockMsg user.id content now] } with
    | Except.error _ => (s, [SockEvent.messageError "Failed to send message"])
    | Except.ok c2 =>
      ({ s with chats := setChat s.chats chatId c2 },
        [SockEvent.newMessage chatId chatId user.id user.name user.avatar content now,
         SockEvent.messageNotification receiverId chatId user.name (jsTake 50 content)])

/-- A chat is well formed when it passes validation, has at least two
participants and a duplicate-free participant list; every chat built by
findOrCreateChat from distinct users is well formed. -/
def chatOkB (c : Chat) : Bool :=
  chatValidate c && decide (2 ≤ c.participants.length) &&
    ((jsDedup c.participants).length == c.participants.length)

/-- Decidable equality on Except, for evaluating the model on concrete
inputs. -/
instance {ε α : Type} [DecidableEq ε] [DecidableEq α] : DecidableEq (Except ε α) := fun a b =>
  match a, b with
  | Except.ok x, Except.ok y =>
    if h : x = y then Decidable.isTrue (by rw [h])
    else Decidable.isFalse (by intro hc; cases hc; exact h rfl)
  | Except.error x, Except.error y =>
    if h : x = y then Decidable.isTrue (by rw [h])
    else Decidable.isFalse (by intro hc; cases hc; exact h rfl)
  | Except.ok _, Except.error _ => Decidable.isFalse (by intro hc; cases hc)
  | Except.error _, Except.ok _ => Decidable.isFalse (by intro hc; cases hc)

/-! Concrete states used by the counterexamples and witnesses. -/

/-- A one-serving requested quantity. -/
def qServing : Quantity := { amount := 1, unit := "servings" }

/-- C1: a fresh listing owned by donor 10, no requests yet. -/
def c1start : RState := {
  foods := [(1, { donor := 10, status := FoodStatus.available, isAvailable := true, isActive := true })],
  requests := [],
  nextReqId := 0 }

/-- C1: a legal operation sequence after which two requests on listing 1
are simultaneously accepted: create, reject, create again (the listing
reverted to available), then accept the rejected request and accept the
pending one. -/
def c1trace : List Op := [
  Op.createReq 20 1 none qServing 0,
  Op.setStatus 10 0 "rejected" none 1,
  Op.createReq 21 1 none qServing 2,
  Op.setStatus 10 0 "accepted" none 3,
  Op.setStatus 10 1 "accepted" none 4 ]

/-- C1 witness: a guarded trace create, accept, complete. -/
def c1goodStart : RState := {
  foods := [(1, { donor := 10, status := FoodStatus.available, isAvailable := true, isActive := true })],
  requests := [],
  nextReqId := 0 }

/-- C1 witness trace. -/
def c1goodTrace : List Op := [
  Op.createReq 20 1 none qServing 0,
  Op.setStatus 10 0 "accepted" none 1,
  Op.setStatus 10 0 "completed" none 2 ]

/-- C2 witness state: one available active listing. -/
def c2state : RState := {
  foods := [(4, { donor := 11, status := FoodStatus.available, isAvailable := true, isActive := true })],
  requests := [],
  nextReqId := 0 }

/-- C2 witness: the listing stored in c2state. -/
def c2food : Food :=
  { donor := 11, status := FoodStatus.available, isAvailable := true, isActive := true }

/-- C3 witness: the listing stored in c3state. -/
def c3food : Food :=
  { donor := 10, status := FoodStatus.requested, isAvailable := true, isActive := true }

/-- C3: a request that was already rejected. -/
def c3req : Request := {
  id := 0, foodItem := 1, donor := 10, receiver := 20,
  status := ReqStatus.rejected,
  requestedQuantity := qServing, pickupPreferredTime := 0 }

/-- C3: state holding the rejected request and its listing. -/
def c3state : RState := {
  foods := [(1, { donor := 10, status := FoodStatus.requested, isAvailable := true, isActive := true })],
  requests := [c3req],
  nextReqId := 1 }

/-- C4: two pending requests by receivers 20 and 21 on listing 1 of donor
30, the listing marked requested. -/
def c4reqA : Request := {
  id := 0, foodItem := 1, donor := 30, receiver := 20,
  requestedQuantity := qServing, pickupPreferredTime := 0 }

/-- C4: the second pending request. -/
def c4reqB : Request := {
  id := 1, foodItem := 1, donor := 30, receiver := 21,
  requestedQuantity := qServing, pickupPreferredTime := 0 }

/-- C4: the listing stored in c4state. -/
def c4food : Food :=
  { donor := 30, status := FoodStatus.requested, isAvailable := true, isActive := true }

/-- C4: the scenario state. -/
def c4state : RState := {
  foods := [(1, { donor := 30, status := FoodStatus.requested, isAvailable := true, isActive := true })],
  requests := [c4reqA, c4reqB],
  nextReqId := 2 }

/-- C5: an existing chat between users 1 and 2 about food 3. -/
def c5chat : Chat := {
  id := 1, participants := [1, 2], foodItem := some 3,
  messages := [], lastMessage := none, unreadCount := [],
  isActive := true, lastActivity := 0 }

/-- C5: socket state holding that chat. -/
def c5state : SState := { chats := [c5chat], nextChatId := 5 }

/-- C5: the sending user. -/
def c5user : UserInfo := { id := 1, name := "Alice", avatar := "a.png" }

/-- C6: a chat between users 1 and 2 about food 3, no messages. -/
def c6chat : Chat := {
  id := 1, participants := [1, 2], foodItem := some 3,
  messages := [], lastMessage := none, unreadCount := [],
  isActive := true, lastActivity := 0 }

/-- C6: user 1 sends three messages. -/
def c6send : Except String Chat :=
  (Chat.addMessage c6chat 1 "m1" "text" none none 1).bind (fun c =>
    (Chat.addMessage c 1 "m2" "text" none none 2).bind (fun c2 =>
      Chat.addMessage c2 1 "m3" "text" none none 3))

/-- C6: user 2 then marks the chat read. -/
def c6mark : Except String Chat :=
  c6send.bind (fun c => Chat.markAsRead c 2 10)

/-- C7 counterexample: a chat whose participant list holds user 7 twice;
it passes the length check and the first save deduplicates it. -/
def c7bad : Chat := {
  id := 1, participants := [7, 7], foodItem := some 1,
  messages := [], lastMessage := none, unreadCount := [],
  isActive := true, lastActivity := 0 }

/-- C7 counterexample: the state persisted by the first markAsRead. -/
def c7badSaved : Chat := {
  id := 1, participants := [7], foodItem := some 1,
  messages := [], lastMessage := none, unreadCount := [(7, 0)],
  isActive := true, lastActivity := 0 }

/-- C7 witness: a well formed chat with one unread message from user 1. -/
def c7chat : Chat := {
  id := 1, participants := [1, 2], foodItem := some 3,
  messages := [{ sender := 1, content := "hi", timestamp := 1 }],
  lastMessage := none, unreadCount := [(2, 1)],
  isActive := true, lastActivity := 1 }

/-- C8: an empty valid chat to append messages to. -/
def c8chat : Chat := {
  id := 1, participants := [1, 2], foodItem := some 3,
  messages := [], lastMessage := none, unreadCount := [],
  isActive := true, lastActivity := 0 }

/-- C8: content of length exactly 1000. -/
def c8content1000 : String := String.mk (List.replicate 1000 'a')

/-- C8: content of length 1001. -/
def c8content1001 : String := String.mk (List.replicate 1001 'a')

/-- C9 counterexample: a chat with a duplicated participant. -/
def c9bad : Chat := {
  id := 1, participants := [7, 7], foodItem := some 1,
  messages := [], lastMessage := none, unreadCount := [],
  isActive := true, lastActivity := 0 }

/-- C9 counterexample: what save persists for it. -/
def c9badSaved : Chat := {
  id := 1, participants := [7], foodItem := some 1,
  messages := [], lastMessage := none, unreadCount := [],
  isActive := true, lastActivity := 0 }

/-- C9 witness: a valid chat with one duplicate among three entries. -/
def c9dup : Chat := {
  id := 2, participants := [1, 2, 1], foodItem := some 4,
  messages := [], lastMessage := none, unreadCount := [],
  isActive := true, lastActivity := 0 }

/-- C10: an existing chat between users 1 and 2 about food 3. -/
def c10chat : Chat := {
  id := 1, participants := [1, 2], foodItem := some 3,
  messages := [], lastMessage := none, unreadCount := [(2, 4)],
  isActive := true, lastActivity := 0 }

/-- C10: socket state holding that chat. -/
def c10state : SState := { chats := [c10chat], nextChatId := 5 }

/-- C10: an authenticated user who is not a participant of the chat. -/
def c10intruder : UserInfo := { id := 9, name := "Mallory", avatar := "m.png" }

/-- A chat with one message appended and nothing else changed, the shape
the socket handler persists. -/
def appendMsgChat (c : Chat) (m : Message) : Chat :=
  { c with messages := c.messages ++ [m] }

/-- The socket state after the handler saves an existing chat with one
pushed message. -/
def sendFoundState (s : SState) (chatId : Nat) (c : Chat) (m : Message) : SState :=
  { s with chats := setChat s.chats chatId (appendMsgChat c m) }

/-- C7 witness: the chat after user 2 marks it read at time 5. -/
def c7chatRead : Chat := {
  id := 1, participants := [1, 2], foodItem := some 3,
  messages := [{ sender := 1, content := "hi", isRead := true, readAt := some 5, timestamp := 1 }],
  lastMessage := none, unreadCount := [(2, 0)],
  isActive := true, lastActivity := 1 }

/-- The request document createRequest builds on success. -/
def newRequestDoc (s : RState) (rcv fid : Nat) (msg : Option String)
    (qty : Quantity) (t : Nat) (food : Food) : Request :=
  { id := s.nextReqId,
    foodItem := fid,
    donor := food.donor,
    receiver := rcv,
    message := msg,
    requestedQuantity := qty,
    pickupPreferredTime := t }

/-- The state createRequest persists on success: the pending request is
appended and the listing is marked requested. -/
def createdState (s : RState) (rcv fid : Nat) (msg : Option String)
    (qty : Quantity) (t : Nat) (food : Food) : RState :=
  { s with
    requests := s.requests ++ [newRequestDoc s rcv fid msg qty t food],
    nextReqId := s.nextReqId + 1,
    foods := updateFood s.foods fid setRequested }

/-- The state after a request document is saved with new content. -/
def updatedState (s : RState) (rid : Nat) (r' : Request) : RState :=
  { s with requests := setReq s.requests rid r' }

/-- The state the accepted branch persists: updated request, listing
claimed and unavailable. -/
def acceptState (s : RState) (rid : Nat) (r : Request) (msg : Option String)
    (now : Nat) : RState :=
  { s with
    requests := setReq s.requests rid (Request.accept r msg none now),
    foods := updateFood s.foods r.foodItem setClaimed }

/-- The state the rejected or cancelled branch persists when no active
request remains: updated request, listing reverted to available. -/
def revertState (s : RState) (rid : Nat) (r' : Request) : RState :=
  { s with
    requests := setReq s.requests rid r',
    foods := updateFood s.foods r'.foodItem setAvailable }

/-! Helper lemmas about the deduplication, the unread map and save. -/

theorem jsDedupAux_sublist (xs : List Nat) :
    ∀ seen, List.Sublist (jsDedupAux seen xs) xs := by
  induction xs with
  | nil => intro seen; simp [jsDedupAux]
  | cons x xs ih =>
    intro seen
    by_cases h : seen.contains x = true
    · simp only [jsDedupAux, h, if_true]
      exact List.Sublist.cons x (ih seen)
    · simp only [jsDedupAux, h, if_false, Bool.false_eq_true]
      exact List.Sublist.cons₂ x (ih (seen ++ [x]))

theorem jsDedup_sublist (ps : List Nat) : List.Sublist (jsDedup ps) ps :=
  jsDedupAux_sublist ps []

theorem jsDedup_eq_of_length {ps : List Nat}
    (h : (jsDedup ps).length = ps.length) : jsDedup ps = ps :=
  (jsDedup_sublist ps).eq_of_length h

theorem jsDedupAux_eq_self (xs : List Nat) :
    ∀ seen, xs.Nodup → (∀ x ∈ xs, x ∉ seen) → jsDedupAux seen xs = xs := by
  induction xs with
  | nil => intro seen _ _; rfl
  | cons x xs ih =>
    intro seen hnd hdisj
    have hx : seen.contains x = false := by
      simp only [List.elem_eq_mem, decide_eq_false_iff_not]
      exact hdisj x (by simp)
    simp only [jsDedupAux, hx, Bool.false_eq_true, if_false]
    have hnd' := (List.nodup_cons.mp hnd).2
    have hxnot := (List.nodup_cons.mp hnd).1
    rw [ih (seen ++ [x]) hnd']
    intro y hy
    simp only [List.mem_append, List.mem_singleton]
    rintro (hys | hyx)
    · exact hdisj y (by simp [hy]) hys
    · exact hxnot (hyx ▸ hy)

theorem jsDedup_of_nodup {ps : List Nat} (h : ps.Nodup) : jsDedup ps = ps :=
  jsDedupAux_eq_self ps [] h (by simp)

theorem mapGet_mapSet_self (m : List (Nat × Nat)) (k v : Nat) :
    mapGet (mapSet m k v) k = v := by
  induction m with
  | nil => simp [mapGet, mapSet]
  | cons p m ih =>
    by_cases hp : p.1 = k
    · simp [mapGet, mapSet, hp]
    · simp [mapGet, mapSet, hp, ih]

theorem mapGet_mapSet_ne (m : List (Nat × Nat)) (k v k' : Nat) (h : k' ≠ k) :
    mapGet (mapSet m k v) k' = mapGet m k' := by
  induction m with
  | nil => simp [mapGet, mapSet, Ne.symm h]
  | cons p m ih =>
    by_cases hp : p.1 = k
    · simp [mapGet, mapSet, hp, Ne.symm h, hp ▸ (Ne.symm h)]
    · by_cases hq : p.1 = k'
      · simp [mapGet, mapSet, hp, hq, h]
      · simp [mapGet, mapSet, hp, hq, ih]

theorem mapSet_mapSet_same (m : List (Nat × Nat)) (k v : Nat) :
    mapSet (mapSet m k v) k v = mapSet m k v := by
  induction m with
  | nil => simp [mapSet]
  | cons p m ih =>
    by_cases hp : p.1 = k
    · simp [mapSet, hp]
    · simp [mapSet, hp, ih]

theorem markMsg_idem (u n1 n2 : Nat) (m : Message) :
    markMsg u n2 (markMsg u n1 m) = markMsg u n1 m := by
  by_cases h : m.isRead = false ∧ m.sender ≠ u
  · simp [markMsg, h]
  · simp [markMsg, h]

theorem map_markMsg_idem (u n1 n2 : Nat) (l : List Message) :
    (l.map (markMsg u n1)).map (markMsg u n2) = l.map (markMsg u n1) := by
  rw [List.map_map]
  exact List.map_congr_left (fun m _ => markMsg_idem u n1 n2 m)

theorem preSave_of_nodup {c : Chat} (hn : c.participants.Nodup)
    (hlen : 2 ≤ c.participants.length) : preSave c = Except.ok c := by
  have hd := jsDedup_of_nodup hn
  simp only [preSave, hd]
  have : ¬ c.participants.length < 2 := by omega
  simp [this]

theorem saveChat_ok_of {c : Chat} (hv : chatValidate c = true)
    (hn : c.participants.Nodup) (hlen : 2 ≤ c.participants.length) :
    saveChat c = Except.ok c := by
  simp [saveChat, hv, preSave_of_nodup hn hlen]

theorem saveChat_ok_nodup {c c' : Chat} (hn : c.participants.Nodup)
    (h : saveChat c = Except.ok c') :
    c' = c ∧ chatValidate c = true ∧ 2 ≤ c.participants.length := by
  by_cases hv : chatValidate c = true
  · simp only [saveChat, hv, if_true] at h
    by_cases hl : c.participants.length < 2
    · simp [preSave, hl] at h
    · have hlen : 2 ≤ c.participants.length := by omega
      rw [preSave_of_nodup hn hlen] at h
      cases h
      exact ⟨rfl, hv, hlen⟩
  · simp [saveChat, hv] at h

theorem chatOkB_spec {c : Chat} (h : chatOkB c = true) :
    chatValidate c = true ∧ 2 ≤ c.participants.length ∧
      jsDedup c.participants = c.participants := by
  simp only [chatOkB, Bool.and_eq_true, decide_eq_true_eq, beq_iff_eq] at h
  exact ⟨h.1.1, h.1.2, jsDedup_eq_of_length h.2⟩

theorem chatValidate_append {c : Chat} (m : Message)
    (hv : chatValidate c = true) (hm : msgValid m = true) :
    chatValidate { c with messages := c.messages ++ [m] } = true := by
  simp only [chatValidate, Bool.and_eq_true, List.all_append, List.all_cons,
    List.all_nil, Bool.and_true] at hv ⊢
  exact ⟨⟨hv.1.1, hv.1.2, hm⟩, hv.2⟩

theorem mem_jsDedupAux {y : Nat} (xs : List Nat) :
    ∀ seen, y ∈ jsDedupAux seen xs → y ∉ seen := by
  induction xs with
  | nil => intro seen h; simp [jsDedupAux] at h
  | cons x xs ih =>
    intro seen
    by_cases hx : seen.contains x = true
    · simp only [jsDedupAux, hx, if_true]
      exact ih seen
    · simp only [jsDedupAux, hx, Bool.false_eq_true, if_false, List.mem_cons]
      rintro (rfl | hy)
      · simpa using hx
      · intro hs
        exact ih (seen ++ [x]) hy (by simp [hs])

theorem jsDedupAux_nodup (xs : List Nat) :
    ∀ seen, (jsDedupAux seen xs).Nodup := by
  induction xs with
  | nil => intro seen; simp [jsDedupAux]
  | cons x xs ih =>
    intro seen
    by_cases hx : seen.contains x = true
    · simpa only [jsDedupAux, hx, if_true] using ih seen
    · simp only [jsDedupAux, hx, Bool.false_eq_true, if_false, List.nodup_cons]
      refine ⟨fun hmem => ?_, ih (seen ++ [x])⟩
      exact mem_jsDedupAux xs (seen ++ [x]) hmem (by simp)

theorem jsDedup_nodup (ps : List Nat) : (jsDedup ps).Nodup :=
  jsDedupAux_nodup ps []

theorem saveChat_append {c : Chat} (m : Message) (hok : chatOkB c = true)
    (hm : msgValid m = true) :
    saveChat { c with messages := c.messages ++ [m] } =
      Except.ok { c with messages := c.messages ++ [m] } := by
  obtain ⟨hv, hlen, hded⟩ := chatOkB_spec hok
  have hn : c.participants.Nodup := hded ▸ jsDedup_nodup c.participants
  exact saveChat_ok_of (chatValidate_append m hv hm) hn hlen

theorem sendMessage_found (s : SState) (user : UserInfo) (chatId : Nat)
    (content : String) (receiverId now : Nat) (c : Chat)
    (hfind : findChat s.chats chatId = some c)
    (hok : chatOkB c = true)
    (hm : msgValid (mkSockMsg user.id content now) = true) :
    sendMessage s user chatId content receiverId now =
      (sendFoundState s chatId c (mkSockMsg user.id content now),
       [SockEvent.newMessage chatId chatId user.id user.name user.avatar content now,
        SockEvent.messageNotification receiverId chatId user.name (jsTake 50 content)]) := by
  simp only [sendMessage, hfind]
  rw [saveChat_append (mkSockMsg user.id content now) hok hm]
  rfl

theorem sendMessage_missing (s : SState) (user : UserInfo) (chatId : Nat)
    (content : String) (receiverId now : Nat)
    (hfind : findChat s.chats chatId = none) :
    sendMessage s user chatId content receiverId now =
      (s, [SockEvent.messageError "Failed to send message"]) := by
  simp [sendMessage, hfind, saveChat, chatValidate]

/-- C5, corrected: the send-message gateway does not delegate to the Chat
Engine find-or-create.  It resolves the chat by id only; when the id does
not resolve, it builds a chat without the mandatory food item, whose save
fails validation, so the handler emits only a message-error and persists
nothing.  When the chat exists and the content is valid, it pushes the
message directly, saves, broadcasts new-message with the public sender
fields to the room named by the incoming chat id, and emits a
message-notification whose preview is the first 50 characters to the
personal room of the receiver. -/
theorem C5_theorem (s : SState) (user : UserInfo) (chatId : Nat)
    (content : String) (receiverId now : Nat) :
    (findChat s.chats chatId = none →
      sendMessage s user chatId content receiverId now =
        (s, [SockEvent.messageError "Failed to send message"])) ∧
    (∀ c, findChat s.chats chatId = some c → chatOkB c = true →
      msgValid (mkSockMsg user.id content now) = true →
      sendMessage s user chatId content receiverId now =
        (sendFoundState s chatId c (mkSockMsg user.id content now),
         [SockEvent.newMessage chatId chatId user.id user.name user.avatar content now,
          SockEvent.messageNotification receiverId chatId user.name (jsTake 50 content)])) :=
  ⟨fun hfind => sendMessage_missing s user chatId content receiverId now hfind,
   fun c hfind hok hm => sendMessage_found s user chatId content receiverId now c hfind hok hm⟩

/-- C5 counterexample: a chat between users 1 and 2 about food 3
exists, so the find-or-create of the Chat Engine resolves it, yet a
send-message naming a non-resolving chat id neither persists nor
broadcasts anything: it only emits a message-error, because the handler
creates a chat without the required food item instead of delegating to
find-or-create. -/
theorem C5_counterexample :
    findOrCreateChat c5state.chats 1 2 3 99 7 = Except.ok (c5state.chats, c5chat) ∧
    sendMessage c5state c5user 2 "hello" 2 7 =
      (c5state, [SockEvent.messageError "Failed to send message"]) := by
  decide

/-- C5 witness: the amended behaviour evaluated on the existing chat. -/
theorem C5_witness :
    (findChat c5state.chats 1 = some c5chat ∧ chatOkB c5chat = true ∧
      msgValid (mkSockMsg c5user.id "hello" 7) = true) ∧
    sendMessage c5state c5user 1 "hello" 2 7 =
      (sendFoundState c5state 1 c5chat (mkSockMsg c5user.id "hello" 7),
       [SockEvent.newMessage 1 1 c5user.id c5user.name c5user.avatar "hello" 7,
        SockEvent.messageNotification 2 1 c5user.name (jsTake 50 "hello")]) :=
  ⟨⟨by decide, by decide, by decide⟩,
   (C5_theorem c5state c5user 1 "hello" 2 7).2 c5chat (by decide) (by decide) (by decide)⟩

/-- Adding a message to a chat with exactly the duplicate-free
participants a and b yields the document built by addMessage. -/
theorem addMessage_pair_eq (c : Chat) (a b : Nat) (content mt : String)
    (mu mc : Option String) (now : Nat) (c' : Chat)
    (hp : c.participants = [a, b]) (hab : a ≠ b)
    (h : Chat.addMessage c a content mt mu mc now = Except.ok c') :
    c' = addMessageDoc c a content mt mu mc now := by
  have hn : (addMessageDoc c a content mt mu mc now).participants.Nodup := by
    show c.participants.Nodup
    rw [hp]
    simp [hab]
  exact (saveChat_ok_nodup hn h).1

/-- C6: in a chat with participants A and B, every message appended by A
increments exactly the unread counter of B, leaves the counter of A
unchanged, and sets lastMessage and lastActivity; concretely, after A
sends three messages the counter of B is 3, and after B marks the chat
read the counter is 0 and all three messages are read. -/
theorem C6_theorem :
    (∀ (c : Chat) (a b : Nat) (content mt : String) (mu mc : Option String)
        (now : Nat) (c' : Chat),
      c.participants = [a, b] → a ≠ b →
      Chat.addMessage c a content mt mu mc now = Except.ok c' →
      Chat.getUnreadCount c' b = Chat.getUnreadCount c b + 1 ∧
      Chat.getUnreadCount c' a = Chat.getUnreadCount c a ∧
      c'.lastMessage = some (addMsgDoc a content mt mu mc now) ∧
      c'.lastActivity = now) ∧
    c6send.map (fun c => Chat.getUnreadCount c 2) = Except.ok 3 ∧
    c6mark.map (fun c => Chat.getUnreadCount c 2) = Except.ok 0 ∧
    c6mark.map (fun c => c.messages.all (fun m => m.isRead)) = Except.ok true ∧
    c6mark.map (fun c => c.messages.length) = Except.ok 3 := by
  refine ⟨?_, by decide, by decide, by decide, by decide⟩
  intro c a b content mt mu mc now c' hp hab h
  have hc' := addMessage_pair_eq c a b content mt mu mc now c' hp hab h
  subst hc'
  have hinc : incUnread c.unreadCount a c.participants =
      mapSet c.unreadCount b (mapGet c.unreadCount b + 1) := by
    rw [hp]
    simp [incUnread, Ne.symm hab]
  refine ⟨?_, ?_, rfl, rfl⟩
  · show mapGet (incUnread c.unreadCount a c.participants) b = mapGet c.unreadCount b + 1
    rw [hinc, mapGet_mapSet_self]
  · show mapGet (incUnread c.unreadCount a c.participants) a = mapGet c.unreadCount a
    rw [hinc, mapGet_mapSet_ne _ _ _ _ hab]

/-- C6 witness: the general part of C6 evaluated on the concrete chat. -/
theorem C6_witness :
    (c6chat.participants = [1, 2] ∧ (1 : Nat) ≠ 2 ∧
      Chat.addMessage c6chat 1 "m1" "text" none none 1 =
        Except.ok (addMessageDoc c6chat 1 "m1" "text" none none 1)) ∧
    Chat.getUnreadCount (addMessageDoc c6chat 1 "m1" "text" none none 1) 2 =
      Chat.getUnreadCount c6chat 2 + 1 :=
  ⟨⟨rfl, by decide, by decide⟩,
   (C6_theorem.1 c6chat 1 2 "m1" "text" none none 1
      (addMessageDoc c6chat 1 "m1" "text" none none 1) rfl (by decide) (by decide)).1⟩

/-- C7, corrected: markRead is idempotent on every chat whose participant
list is duplicate-free, as the data-model invariant requires: a second
markRead returns the same state without error, the unread counter of the
reader is 0, and every message not authored by the reader is read.  The
restriction is forced: a chat whose participant list holds a user twice
is deduplicated below two entries by the first save, and the second call
then errors. -/
theorem C7_theorem (c : Chat) (u n1 n2 : Nat) (c1 : Chat)
    (hn : c.participants.Nodup)
    (h1 : Chat.markAsRead c u n1 = Except.ok c1) :
    Chat.markAsRead c1 u n2 = Except.ok c1 ∧
    Chat.getUnreadCount c1 u = 0 ∧
    ∀ m, m ∈ c1.messages → m.sender ≠ u → m.isRead = true := by
  have hn' : (markAsReadDoc c u n1).participants.Nodup := hn
  obtain ⟨hc1, hv, hlen⟩ := saveChat_ok_nodup hn' h1
  subst hc1
  have hdoc : markAsReadDoc (markAsReadDoc c u n1) u n2 = markAsReadDoc c u n1 := by
    simp only [markAsReadDoc, map_markMsg_idem, mapSet_mapSet_same]
  refine ⟨?_, ?_, ?_⟩
  · rw [Chat.markAsRead, hdoc]
    exact saveChat_ok_of hv hn' hlen
  · show mapGet (mapSet c.unreadCount u 0) u = 0
    exact mapGet_mapSet_self c.unreadCount u 0
  · intro m hm hsender
    have hm' : m ∈ c.messages.map (markMsg u n1) := hm
    obtain ⟨m0, _, hm0⟩ := List.mem_map.mp hm'
    by_cases hcond : m0.isRead = false ∧ m0.sender ≠ u
    · rw [← hm0]
      simp [markMsg, hcond]
    · have hmm : m = m0 := by rw [← hm0]; simp [markMsg, hcond]
      subst hmm
      rcases Decidable.not_and_iff_or_not.mp hcond with hr | hs
      · simpa using hr
      · exact absurd hsender (by simpa using hs)

/-- C7 counterexample: for the chat whose participant list is the user 7
twice, the first markRead succeeds and persists a single-participant
chat, and the second markRead errors instead of returning the same
state. -/
theorem C7_counterexample :
    Chat.markAsRead c7bad 7 1 = Except.ok c7badSaved ∧
    Chat.markAsRead c7badSaved 7 2 =
      Except.error "Chat must have at least 2 participants" := by
  decide

/-- C7 witness: idempotence evaluated on a well formed chat. -/
theorem C7_witness :
    (c7chat.participants.Nodup ∧ Chat.markAsRead c7chat 2 5 = Except.ok c7chatRead) ∧
    Chat.markAsRead c7chatRead 2 9 = Except.ok c7chatRead :=
  ⟨⟨by decide, by decide⟩,
   (C7_theorem c7chat 2 5 9 c7chatRead (by decide) (by decide)).1⟩

set_option maxRecDepth 100000 in
/-- C8: appending a text message whose stored content has length exactly
1000 succeeds; length 1001 fails with a validation error; empty content
for a text message fails with a validation error. -/
theorem C8_theorem :
    (Chat.addMessage c8chat 1 c8content1000 "text" none none 5).isOk = true ∧
    Chat.addMessage c8chat 1 c8content1001 "text" none none 5 =
      Except.error "ValidationError" ∧
    Chat.addMessage c8chat 1 "" "text" none none 5 =
      Except.error "ValidationError" := by
  decide

/-- C9, corrected: saving a chat document rejects a participant list
shorter than two entries counting duplicates; any longer list is saved
after silent deduplication, so the persisted list is duplicate-free but
can end up shorter than two entries, and a list with duplicates is never
rejected. -/
theorem C9_theorem (c : Chat) (hv : chatValidate c = true) :
    (c.participants.length < 2 →
      saveChat c = Except.error "Chat must have at least 2 participants") ∧
    (2 ≤ c.participants.length →
      saveChat c = Except.ok { c with participants := jsDedup c.participants }) := by
  constructor
  · intro hl
    simp [saveChat, hv, preSave, hl]
  · intro hl
    have hnl : ¬ c.participants.length < 2 := by omega
    by_cases hd : (jsDedup c.participants).length = c.participants.length
    · have heq := jsDedup_eq_of_length hd
      simp [saveChat, hv, preSave, hnl, hd, heq]
    · simp [saveChat, hv, preSave, hnl, hd]

/-- C9 counterexample: a chat whose participant list holds user 7 twice
violates the at-least-two-unique-participants invariant, yet the save is
not rejected: it persists the chat with the single participant 7. -/
theorem C9_counterexample :
    saveChat c9bad = Except.ok c9badSaved ∧
    c9bad.participants.length = 2 ∧
    c9badSaved.participants = [7] ∧
    c9badSaved.participants.length < 2 := by
  decide

/-- C9 witness: the amended save behaviour on a three-entry list with one
duplicate. -/
theorem C9_witness :
    (chatValidate c9dup = true ∧ 2 ≤ c9dup.participants.length) ∧
    saveChat c9dup = Except.ok { c9dup with participants := jsDedup c9dup.participants } :=
  ⟨⟨by decide, by decide⟩, (C9_theorem c9dup (by decide)).2 (by decide)⟩

/-- C10: the realtime send-message path performs no participant check and
does not go through addMessage: a user who is not a participant of an
existing chat still gets the message appended and broadcast, and the
persisted chat keeps its unread counters and lastMessage unchanged. -/
theorem C10_theorem (s : SState) (user : UserInfo) (chatId : Nat)
    (content : String) (receiverId now : Nat) (c : Chat)
    (hfind : findChat s.chats chatId = some c)
    (hnp : Chat.isParticipant c user.id = false)
    (hok : chatOkB c = true)
    (hm : msgValid (mkSockMsg user.id content now) = true) :
    sendMessage s user chatId content receiverId now =
      (sendFoundState s chatId c (mkSockMsg user.id content now),
       [SockEvent.newMessage chatId chatId user.id user.name user.avatar content now,
        SockEvent.messageNotification receiverId chatId user.name (jsTake 50 content)]) ∧
    (appendMsgChat c (mkSockMsg user.id content now)).unreadCount = c.unreadCount ∧
    (appendMsgChat c (mkSockMsg user.id content now)).lastMessage = c.lastMessage :=
  ⟨sendMessage_found s user chatId content receiverId now c hfind hok hm, rfl, rfl⟩

/-! Request lifecycle lemmas. -/

theorem lookupFood_updateFood_self (fs : List (Nat × Food)) (fid : Nat)
    (g : Food → Food) :
    lookupFood (updateFood fs fid g) fid = (lookupFood fs fid).map g := by
  induction fs with
  | nil => rfl
  | cons p fs ih =>
    obtain ⟨k, f⟩ := p
    by_cases hk : k = fid
    · simp [updateFood, lookupFood, hk]
    · simp [updateFood, lookupFood, hk, ih]

theorem lookupFood_updateFood_ne (fs : List (Nat × Food)) (fid fid' : Nat)
    (g : Food → Food) (h : fid' ≠ fid) :
    lookupFood (updateFood fs fid g) fid' = lookupFood fs fid' := by
  induction fs with
  | nil => rfl
  | cons p fs ih =>
    obtain ⟨k, f⟩ := p
    by_cases hk : k = fid
    · subst hk
      simp [updateFood, lookupFood, Ne.symm h]
    · by_cases hk' : k = fid'
      · subst hk'
        simp [updateFood, lookupFood, hk]
      · simp [updateFood, lookupFood, hk, hk', ih]

theorem activeCountL_append (rs : List Request) (r : Request) (fid : Nat) :
    activeCountL (rs ++ [r]) fid =
      activeCountL rs fid + (if isActiveReq fid r then 1 else 0) := by
  simp [activeCountL, List.countP_append, List.countP_cons]

theorem activeCountL_setReq_eq (rs : List Request) (rid : Nat) (r r' : Request)
    (hf : findReq rs rid = some r)
    (hfood : r'.foodItem = r.foodItem)
    (hact : statusActive r'.status = statusActive r.status) (fid : Nat) :
    activeCountL (setReq rs rid r') fid = activeCountL rs fid := by
  induction rs with
  | nil => simp [findReq] at hf
  | cons a rs ih =>
    by_cases ha : a.id = rid
    · have hra : a = r := by
        have h2 := hf
        simp only [findReq, ha, if_true, Option.some.injEq] at h2
        exact h2
      subst hra
      have hiar : isActiveReq fid r' = isActiveReq fid a := by
        simp [isActiveReq, hfood, hact]
      simp [setReq, ha, activeCountL, List.countP_cons, hiar]
    · have hf' : findReq rs rid = some r := by
        simpa [findReq, ha] using hf
      have hrec := ih hf'
      simp only [setReq, ha, if_false]
      simp only [activeCountL, List.countP_cons] at hrec ⊢
      rw [hrec]

theorem activeCountL_setReq_le (rs : List Request) (rid : Nat) (r' : Request)
    (hact : statusActive r'.status = false) (fid : Nat) :
    activeCountL (setReq rs rid r') fid ≤ activeCountL rs fid := by
  induction rs with
  | nil => simp [setReq]
  | cons a rs ih =>
    by_cases ha : a.id = rid
    · have hset : setReq (a :: rs) rid r' = r' :: rs := by simp [setReq, ha]
      have hiar : isActiveReq fid r' = false := by
        simp [isActiveReq, hact]
      rw [hset]
      simp only [activeCountL, List.countP_cons, hiar, Bool.false_eq_true, if_false,
        Nat.add_zero]
      exact Nat.le_add_right _ _
    · have hset : setReq (a :: rs) rid r' = a :: setReq rs rid r' := by simp [setReq, ha]
      rw [hset]
      simp only [activeCountL, List.countP_cons]
      simp only [activeCountL] at ih
      exact Nat.add_le_add_right ih _

theorem acceptedCountL_le_activeCountL (rs : List Request) (fid : Nat) :
    acceptedCountL rs fid ≤ activeCountL rs fid := by
  simp only [acceptedCountL, activeCountL]
  apply List.countP_mono_left
  intro r _ h
  simp only [Bool.and_eq_true] at h
  simp only [isActiveReq, Bool.and_eq_true]
  refine ⟨h.1, ?_⟩
  cases hs : r.status <;> simp_all [statusAccepted, statusActive]

theorem accept_foodItem (r : Request) (msg : Option String) (p : Option Nat)
    (now : Nat) : (Request.accept r msg p now).foodItem = r.foodItem := rfl

theorem reject_foodItem (r : Request) (msg : Option String) (now : Nat) :
    (Request.reject r msg now).foodItem = r.foodItem := rfl

theorem cancel_foodItem (r : Request) (msg cb : Option String) (now : Nat) :
    (Request.cancel r msg cb now).foodItem = r.foodItem := rfl

theorem accept_status (r : Request) (msg : Option String) (p : Option Nat)
    (now : Nat) : (Request.accept r msg p now).status = ReqStatus.accepted := rfl

theorem reject_status (r : Request) (msg : Option String) (now : Nat) :
    (Request.reject r msg now).status = ReqStatus.rejected := rfl

theorem cancel_status (r : Request) (msg cb : Option String) (now : Nat) :
    (Request.cancel r msg cb now).status = ReqStatus.cancelled := rfl

theorem markPickedUp_status (r : Request) (q : Option Quantity)
    (notes : Option String) (now : Nat) :
    (Request.markPickedUp r q notes now).status = ReqStatus.completed := rfl

/-! Preservation of the food/request invariant. -/

theorem foodInv_requests_le (s : RState) (rs' : List Request)
    (hc : ∀ fid, activeCountL rs' fid ≤ activeCountL s.requests fid)
    (hInv : FoodInv s) : FoodInv { s with requests := rs' } := by
  intro fid
  obtain ⟨h1, h2, h3⟩ := hInv fid
  refine ⟨le_trans (hc fid) h1, ?_, ?_⟩
  · intro food hl hav
    have hle := hc fid
    rw [h2 food hl hav] at hle
    exact Nat.le_zero.mp hle
  · intro hnone
    have hle := hc fid
    rw [h3 hnone] at hle
    exact Nat.le_zero.mp hle

theorem foodInv_revert (s : RState) (rs' : List Request) (fid0 : Nat)
    (hc : ∀ fid, activeCountL rs' fid ≤ activeCountL s.requests fid)
    (hz : activeCountL rs' fid0 = 0)
    (hInv : FoodInv s) :
    FoodInv { s with requests := rs', foods := updateFood s.foods fid0 setAvailable } := by
  intro fid
  obtain ⟨h1, h2, h3⟩ := hInv fid
  refine ⟨le_trans (hc fid) h1, ?_, ?_⟩
  · intro food hl hav
    by_cases hf : fid = fid0
    · subst hf; exact hz
    · rw [show ({ s with requests := rs', foods := updateFood s.foods fid0 setAvailable } : RState).foods = updateFood s.foods fid0 setAvailable from rfl,
        lookupFood_updateFood_ne _ _ _ _ hf] at hl
      have hle := hc fid
      rw [h2 food hl hav] at hle
      exact Nat.le_zero.mp hle
  · intro hnone
    by_cases hf : fid = fid0
    · subst hf; exact hz
    · rw [show ({ s with requests := rs', foods := updateFood s.foods fid0 setAvailable } : RState).foods = updateFood s.foods fid0 setAvailable from rfl,
        lookupFood_updateFood_ne _ _ _ _ hf] at hnone
      have hle := hc fid
      rw [h3 hnone] at hle
      exact Nat.le_zero.mp hle

theorem foodInv_claim (s : RState) (rs' : List Request) (fid0 : Nat)
    (g : Food → Food) (hg : ∀ f, (g f).status ≠ FoodStatus.available)
    (hc : ∀ fid, activeCountL rs' fid = activeCountL s.requests fid)
    (hInv : FoodInv s) :
    FoodInv { s with requests := rs', foods := updateFood s.foods fid0 g } := by
  intro fid
  obtain ⟨h1, h2, h3⟩ := hInv fid
  refine ⟨by rw [show ({ s with requests := rs', foods := updateFood s.foods fid0 g } : RState).requests = rs' from rfl, hc fid]; exact h1, ?_, ?_⟩
  · intro food hl hav
    by_cases hf : fid = fid0
    · subst hf
      rw [show ({ s with requests := rs', foods := updateFood s.foods fid g } : RState).foods = updateFood s.foods fid g from rfl,
        lookupFood_updateFood_self] at hl
      cases hlo : lookupFood s.foods fid with
      | none => rw [hlo] at hl; cases hl
      | some f0 =>
        rw [hlo] at hl
        have hgf : g f0 = food := by simpa using hl
        exact absurd (hgf ▸ hav) (hg f0)
    · rw [show ({ s with requests := rs', foods := updateFood s.foods fid0 g } : RState).foods = updateFood s.foods fid0 g from rfl,
        lookupFood_updateFood_ne _ _ _ _ hf] at hl
      rw [show ({ s with requests := rs', foods := updateFood s.foods fid0 g } : RState).requests = rs' from rfl, hc fid]
      exact h2 food hl hav
  · intro hnone
    by_cases hf : fid = fid0
    · subst hf
      rw [show ({ s with requests := rs', foods := updateFood s.foods fid g } : RState).foods = updateFood s.foods fid g from rfl,
        lookupFood_updateFood_self] at hnone
      cases hlo : lookupFood s.foods fid with
      | none =>
        rw [show ({ s with requests := rs', foods := updateFood s.foods fid g } : RState).requests = rs' from rfl, hc fid]
        exact h3 hlo
      | some f0 => rw [hlo] at hnone; cases hnone
    · rw [show ({ s with requests := rs', foods := updateFood s.foods fid0 g } : RState).foods = updateFood s.foods fid0 g from rfl,
        lookupFood_updateFood_ne _ _ _ _ hf] at hnone
      rw [show ({ s with requests := rs', foods := updateFood s.foods fid0 g } : RState).requests = rs' from rfl, hc fid]
      exact h3 hnone

theorem foodInv_create (s : RState) (rcv fid : Nat) (msg : Option String)
    (qty : Quantity) (t : Nat) (hInv : FoodInv s) :
    FoodInv (createRequest s rcv fid msg qty t).1 := by
  cases hlook : lookupFood s.foods fid with
  | none => simpa [createRequest, hlook] using hInv
  | some food =>
    by_cases hcond : (food.isActive && decide (food.status = FoodStatus.available)) = true
    · obtain ⟨hia, hst⟩ : food.isActive = true ∧ food.status = FoodStatus.available := by
        simpa [Bool.and_eq_true, decide_eq_true_eq] using hcond
      have hzero : activeCountL s.requests fid = 0 := (hInv fid).2.1 food hlook hst
      have hres : (createRequest s rcv fid msg qty t).1 =
          createdState s rcv fid msg qty t food := by
        simp [createRequest, hlook, hcond, createdState, newRequestDoc]
      rw [hres]
      intro fid'
      have hreqs : (createdState s rcv fid msg qty t food).requests =
          s.requests ++ [newRequestDoc s rcv fid msg qty t food] := rfl
      have hfoods : (createdState s rcv fid msg qty t food).foods =
          updateFood s.foods fid setRequested := rfl
      by_cases hf' : fid' = fid
      · subst hf'
        refine ⟨?_, ?_, ?_⟩
        · rw [hreqs, activeCountL_append, hzero]
          simp [newRequestDoc, isActiveReq, statusActive]
        · intro food' hl' hav
          rw [hfoods, lookupFood_updateFood_self, hlook] at hl'
          have hfe : setRequested food = food' := by
            simpa using hl'
          rw [← hfe] at hav
          cases hav
        · intro hnone
          rw [hfoods, lookupFood_updateFood_self, hlook] at hnone
          cases hnone
      · have hna : isActiveReq fid' (newRequestDoc s rcv fid msg qty t food) = false := by
          simp [newRequestDoc, isActiveReq, statusActive, Ne.symm hf']
        refine ⟨?_, ?_, ?_⟩
        · rw [hreqs, activeCountL_append, hna]
          simpa using (hInv fid').1
        · intro food' hl' hav
          rw [hfoods, lookupFood_updateFood_ne _ _ _ _ hf'] at hl'
          rw [hreqs, activeCountL_append, hna]
          simpa using (hInv fid').2.1 food' hl' hav
        · intro hnone
          rw [hfoods, lookupFood_updateFood_ne _ _ _ _ hf'] at hnone
          rw [hreqs, activeCountL_append, hna]
          simpa using (hInv fid').2.2 hnone
    · simpa [createRequest, hlook, hcond] using hInv

theorem foodInv_update (s : RState) (caller rid : Nat) (status : String)
    (msg : Option String) (now : Nat) (hInv : FoodInv s)
    (hok : okStep s (Op.setStatus caller rid status msg now) = true) :
    FoodInv (updateStatus s caller rid status msg now).1 := by
  cases hr : findReq s.requests rid with
  | none => simpa [updateStatus, hr] using hInv
  | some r =>
    by_cases hacc : status = "accepted"
    · subst hacc
      by_cases hdon : (caller == r.donor) = true
      · have hpend : r.status = ReqStatus.pending := by
          simp only [okStep, hr] at hok
          simpa using hok
        have hcount : ∀ fid,
            activeCountL (setReq s.requests rid (Request.accept r msg none now)) fid =
              activeCountL s.requests fid := by
          intro fid
          exact activeCountL_setReq_eq s.requests rid r (Request.accept r msg none now)
            hr rfl (by simp [accept_status, hpend, statusActive]) fid
        cases hf : lookupFood s.foods r.foodItem with
        | none =>
          have hres : (updateStatus s caller rid "accepted" msg now).1 =
              { s with requests := setReq s.requests rid (Request.accept r msg none now) } := by
            simp [updateStatus, hr, hdon, applyAccept, accept_foodItem, hf]
          rw [hres]
          exact foodInv_requests_le s _ (fun fid => le_of_eq (hcount fid)) hInv
        | some food =>
          have hres : (updateStatus s caller rid "accepted" msg now).1 =
              { s with requests := setReq s.requests rid (Request.accept r msg none now), foods := updateFood s.foods r.foodItem setClaimed } := by
            simp [updateStatus, hr, hdon, applyAccept, accept_foodItem, hf]
          rw [hres]
          exact foodInv_claim s _ r.foodItem setClaimed
            (fun f => by simp [setClaimed]) hcount hInv
      · simpa [updateStatus, hr, hdon] using hInv
    · by_cases hrej : status = "rejected"
      · subst hrej
        by_cases hdon : (caller == r.donor) = true
        · have hcount : ∀ fid,
              activeCountL (setReq s.requests rid (Request.reject r msg now)) fid ≤
                activeCountL s.requests fid := by
            intro fid
            exact activeCountL_setReq_le s.requests rid _
              (by simp [reject_status, statusActive]) fid
          cases hf : lookupFood s.foods r.foodItem with
          | none =>
            have hres : (updateStatus s caller rid "rejected" msg now).1 =
                { s with requests := setReq s.requests rid (Request.reject r msg now) } := by
              simp [updateStatus, hr, hdon, applyRevert, reject_foodItem, hf]
            rw [hres]
            exact foodInv_requests_le s _ hcount hInv
          | some food =>
            by_cases hz : activeCountL (setReq s.requests rid (Request.reject r msg now)) r.foodItem = 0
            · have hres : (updateStatus s caller rid "rejected" msg now).1 =
                  { s with requests := setReq s.requests rid (Request.reject r msg now), foods := updateFood s.foods r.foodItem setAvailable } := by
                simp [updateStatus, hr, hdon, applyRevert, reject_foodItem, hf, hz]
              rw [hres]
              exact foodInv_revert s _ r.foodItem hcount hz hInv
            · have hres : (updateStatus s caller rid "rejected" msg now).1 =
                  { s with requests := setReq s.requests rid (Request.reject r msg now) } := by
                simp [updateStatus, hr, hdon, applyRevert, reject_foodItem, hf, hz]
              rw [hres]
              exact foodInv_requests_le s _ hcount hInv
        · simpa [updateStatus, hr, hacc, hdon] using hInv
      · by_cases hcan : status = "cancelled"
        · subst hcan
          by_cases hauth : (!(caller == r.receiver) && !(caller == r.donor)) = true
          · simpa [updateStatus, hr, hacc, hrej, hauth] using hInv
          · have hcount : ∀ fid,
                activeCountL (setReq s.requests rid
                  (Request.cancel r msg (some (if caller = r.donor then "donor" else "receiver")) now)) fid ≤
                  activeCountL s.requests fid := by
              intro fid
              exact activeCountL_setReq_le s.requests rid _
                (by simp [cancel_status, statusActive]) fid
            cases hf : lookupFood s.foods r.foodItem with
            | none =>
              have hres : (updateStatus s caller rid "cancelled" msg now).1 =
                  { s with requests := setReq s.requests rid (Request.cancel r msg (some (if caller = r.donor then "donor" else "receiver")) now) } := by
                simp [updateStatus, hr, hauth, applyRevert, cancel_foodItem, hf]
              rw [hres]
              exact foodInv_requests_le s _ hcount hInv
            | some food =>
              by_cases hz : activeCountL (setReq s.requests rid
                  (Request.cancel r msg (some (if caller = r.donor then "donor" else "receiver")) now)) r.foodItem = 0
              · have hres : (updateStatus s caller rid "cancelled" msg now).1 =
                    { s with requests := setReq s.requests rid (Request.cancel r msg (some (if caller = r.donor then "donor" else "receiver")) now), foods := updateFood s.foods r.foodItem setAvailable } := by
                  simp [updateStatus, hr, hauth, applyRevert, cancel_foodItem, hf, hz]
                rw [hres]
                exact foodInv_revert s _ r.foodItem hcount hz hInv
              · have hres : (updateStatus s caller rid "cancelled" msg now).1 =
                    { s with requests := setReq s.requests rid (Request.cancel r msg (some (if caller = r.donor then "donor" else "receiver")) now) } := by
                  simp [updateStatus, hr, hauth, applyRevert, cancel_foodItem, hf, hz]
                rw [hres]
                exact foodInv_requests_le s _ hcount hInv
        · by_cases hcom : status = "completed"
          · subst hcom
            by_cases hdon : (caller == r.donor) = true
            · have hres : (updateStatus s caller rid "completed" msg now).1 =
                  { s with requests := setReq s.requests rid (Request.markPickedUp r none none now) } := by
                simp [updateStatus, hr, hdon]
              rw [hres]
              refine foodInv_requests_le s _ ?_ hInv
              intro fid
              exact activeCountL_setReq_le s.requests rid _
                (by simp [markPickedUp_status, statusActive]) fid
            · simpa [updateStatus, hr, hacc, hrej, hcan, hdon] using hInv
          · simpa [updateStatus, hr, hacc, hrej, hcan, hcom] using hInv

theorem foodInv_applyOp (s : RState) (op : Op) (hInv : FoodInv s)
    (hok : okStep s op = true) : FoodInv (applyOp s op) := by
  cases op with
  | createReq rcv fid msg qty t => exact foodInv_create s rcv fid msg qty t hInv
  | setStatus caller rid status msg now =>
    exact foodInv_update s caller rid status msg now hInv hok

theorem foodInv_run (s : RState) (ops : List Op) (hInv : FoodInv s)
    (hok : okTrace s ops = true) : FoodInv (run s ops) := by
  induction ops generalizing s with
  | nil => simpa [run] using hInv
  | cons op ops ih =>
    simp only [okTrace, Bool.and_eq_true] at hok
    have h1 := foodInv_applyOp s op hInv hok.1
    simpa [run, List.foldl_cons] using ih (applyOp s op) h1 hok.2

/-- C1, corrected: on every trace of lifecycle operations from a state
with no requests in which each accepted update is applied to a pending
request (the guard the specification assumes and the controller omits),
every listing carries at most one accepted request at every point: every
reachable state is itself the end of such a trace, so the bound holds
throughout. -/
theorem C1_theorem (s : RState) (ops : List Op) (h0 : s.requests = [])
    (hok : okTrace s ops = true) (fid : Nat) :
    acceptedCountL (run s ops).requests fid ≤ 1 := by
  have hInv : FoodInv s := by
    intro fid'
    have hz : activeCountL s.requests fid' = 0 := by
      rw [h0]
      rfl
    exact ⟨by rw [hz]; omega, fun _ _ _ => hz, fun _ => hz⟩
  have h1 := (foodInv_run s ops hInv hok fid).1
  exact le_trans (acceptedCountL_le_activeCountL _ _) h1

/-- C1 counterexample: from a fresh listing, the unguarded controller
admits the trace create, reject, create, accept, accept, after which two
requests on listing 1 are simultaneously accepted: the accepted-count
invariant of the claim does not hold of the code as written. -/
theorem C1_counterexample :
    c1start.requests = [] ∧
    acceptedCountL (run c1start c1trace).requests 1 = 2 := by
  decide

/-- C1 witness: a guarded trace create, accept, complete keeps the bound. -/
theorem C1_witness :
    (c1goodStart.requests = [] ∧ okTrace c1goodStart c1goodTrace = true) ∧
    acceptedCountL (run c1goodStart c1goodTrace).requests 1 ≤ 1 :=
  ⟨⟨rfl, by decide⟩, C1_theorem c1goodStart c1goodTrace rfl (by decide) 1⟩

/-- C2: createRequest answers 400 with the listing-unavailable error and
changes nothing whenever the listing is missing, inactive or not
available; when the listing is active and available it appends a pending
request carrying the donor of the listing, marks the listing requested,
and answers 201. -/
theorem C2_theorem (s : RState) (rcv fid : Nat) (msg : Option String)
    (qty : Quantity) (t : Nat) :
    ((∀ food, lookupFood s.foods fid = some food →
        food.isActive = false ∨ food.status ≠ FoodStatus.available) →
      createRequest s rcv fid msg qty t = (s, ApiOut.err 400 "Food item not available")) ∧
    (∀ food, lookupFood s.foods fid = some food → food.isActive = true →
      food.status = FoodStatus.available →
      createRequest s rcv fid msg qty t =
        (createdState s rcv fid msg qty t food, ApiOut.ok 201) ∧
      (newRequestDoc s rcv fid msg qty t food).status = ReqStatus.pending ∧
      lookupFood (createdState s rcv fid msg qty t food).foods fid =
        some { food with status := FoodStatus.requested }) := by
  constructor
  · intro h
    cases hlook : lookupFood s.foods fid with
    | none => simp [createRequest, hlook]
    | some food =>
      rcases h food hlook with hia | hst
      · simp [createRequest, hlook, hia]
      · simp [createRequest, hlook, hst]
  · intro food hlook hia hst
    refine ⟨?_, rfl, ?_⟩
    · simp [createRequest, hlook, hia, hst, createdState, newRequestDoc]
    · show lookupFood (updateFood s.foods fid _) fid = _
      rw [lookupFood_updateFood_self, hlook]
      rfl

/-- C2 witness: a successful creation against the available listing. -/
theorem C2_witness :
    (lookupFood c2state.foods 4 = some c2food ∧ c2food.isActive = true ∧
      c2food.status = FoodStatus.available) ∧
    createRequest c2state 20 4 none qServing 3 =
      (createdState c2state 20 4 none qServing 3 c2food, ApiOut.ok 201) :=
  ⟨⟨by decide, by decide, by decide⟩,
   ((C2_theorem c2state 20 4 none qServing 3).2 c2food (by decide) (by decide)
      (by decide)).1⟩

/-- C3, corrected: the accepted branch checks only that the caller is the
donor (403 otherwise); it performs no check of the current request
status, so accept succeeds from any state, not only pending, setting the
request accepted and the listing claimed and unavailable. -/
theorem C3_theorem (s : RState) (caller rid : Nat) (msg : Option String)
    (now : Nat) (r : Request) (food : Food)
    (hr : findReq s.requests rid = some r)
    (hf : lookupFood s.foods r.foodItem = some food) :
    (caller ≠ r.donor →
      updateStatus s caller rid "accepted" msg now =
        (s, ApiOut.err 403 "Only donor can accept")) ∧
    (caller = r.donor →
      updateStatus s caller rid "accepted" msg now =
        (acceptState s rid r msg now, ApiOut.ok 200) ∧
      (Request.accept r msg none now).status = ReqStatus.accepted ∧
      lookupFood (acceptState s rid r msg now).foods r.foodItem =
        some { food with status := FoodStatus.claimed, isAvailable := false }) := by
  constructor
  · intro hne
    have hb : (caller == r.donor) = false := by simp [hne]
    simp [updateStatus, hr, hb]
  · intro heq
    have hb : (caller == r.donor) = true := by simp [heq]
    refine ⟨?_, rfl, ?_⟩
    · simp [updateStatus, hr, hb, applyAccept, accept_foodItem, hf, acceptState]
    · show lookupFood (updateFood s.foods r.foodItem _) r.foodItem = _
      rw [lookupFood_updateFood_self, hf]
      rfl

/-- C3 counterexample: accepting a request whose status is rejected does
not fail with an invalid-state error: it answers 200 and the request
becomes accepted. -/
theorem C3_counterexample :
    c3req.status = ReqStatus.rejected ∧
    (updateStatus c3state 10 0 "accepted" none 5).2 = ApiOut.ok 200 ∧
    (findReq (updateStatus c3state 10 0 "accepted" none 5).1.requests 0).map
      Request.status = some ReqStatus.accepted := by
  decide

/-- C3 witness: the amended accept behaviour on the concrete state. -/
theorem C3_witness :
    (findReq c3state.requests 0 = some c3req ∧
      lookupFood c3state.foods c3req.foodItem = some c3food ∧ 10 = c3req.donor) ∧
    updateStatus c3state 10 0 "accepted" none 5 =
      (acceptState c3state 0 c3req none 5, ApiOut.ok 200) :=
  ⟨⟨by decide, by decide, by decide⟩,
   ((C3_theorem c3state 10 0 none 5 c3req c3food (by decide) (by decide)).2
      (by decide)).1⟩

/-- C4: after a rejected transition (donor only) or a cancelled
transition (donor or receiver, with cancelledBy recorded accordingly)
the listing is set back to available with isAvailable true exactly when
no pending or accepted request remains on it, and is left unchanged
otherwise; concretely, with two pending requests on listing 1, rejecting
the first leaves the listing requested and rejecting the second reverts
it to available. -/
theorem C4_theorem (s : RState) (caller rid : Nat) (msg : Option String)
    (now : Nat) (r : Request) (food : Food)
    (hr : findReq s.requests rid = some r)
    (hf : lookupFood s.foods r.foodItem = some food) :
    (caller = r.donor →
      activeCountL (setReq s.requests rid (Request.reject r msg now)) r.foodItem = 0 →
      updateStatus s caller rid "rejected" msg now =
        (revertState s rid (Request.reject r msg now), ApiOut.ok 200) ∧
      lookupFood (revertState s rid (Request.reject r msg now)).foods r.foodItem =
        some { food with status := FoodStatus.available, isAvailable := true }) ∧
    (caller = r.donor →
      activeCountL (setReq s.requests rid (Request.reject r msg now)) r.foodItem ≠ 0 →
      updateStatus s caller rid "rejected" msg now =
        (updatedState s rid (Request.reject r msg now), ApiOut.ok 200) ∧
      (updatedState s rid (Request.reject r msg now)).foods = s.foods) ∧
    (caller = r.donor ∨ caller = r.receiver →
      activeCountL (setReq s.requests rid (Request.cancel r msg (some (if caller = r.donor then "donor" else "receiver")) now)) r.foodItem = 0 →
      updateStatus s caller rid "cancelled" msg now =
        (revertState s rid (Request.cancel r msg (some (if caller = r.donor then "donor" else "receiver")) now), ApiOut.ok 200) ∧
      lookupFood (revertState s rid (Request.cancel r msg (some (if caller = r.donor then "donor" else "receiver")) now)).foods r.foodItem =
        some { food with status := FoodStatus.available, isAvailable := true }) ∧
    (caller = r.donor ∨ caller = r.receiver →
      activeCountL (setReq s.requests rid (Request.cancel r msg (some (if caller = r.donor then "donor" else "receiver")) now)) r.foodItem ≠ 0 →
      updateStatus s caller rid "cancelled" msg now =
        (updatedState s rid (Request.cancel r msg (some (if caller = r.donor then "donor" else "receiver")) now), ApiOut.ok 200) ∧
      (updatedState s rid (Request.cancel r msg (some (if caller = r.donor then "donor" else "receiver")) now)).foods = s.foods) ∧
    ((lookupFood (updateStatus c4state 30 0 "rejected" none 1).1.foods 1).map
        Food.status = some FoodStatus.requested ∧
      (lookupFood (updateStatus (updateStatus c4state 30 0 "rejected" none 1).1
          30 1 "rejected" none 2).1.foods 1).map Food.status =
        some FoodStatus.available ∧
      (lookupFood (updateStatus (updateStatus c4state 30 0 "rejected" none 1).1
          30 1 "rejected" none 2).1.foods 1).map Food.isAvailable = some true) := by
  refine ⟨?_, ?_, ?_, ?_, by decide, by decide, by decide⟩
  · intro hd hzero
    have hb : (caller == r.donor) = true := by simp [hd]
    constructor
    · simp [updateStatus, hr, hb, applyRevert, reject_foodItem, hf, hzero, revertState]
    · show lookupFood (updateFood s.foods _ _) r.foodItem = _
      rw [show (Request.reject r msg now).foodItem = r.foodItem from rfl]
      rw [lookupFood_updateFood_self, hf]
      rfl
  · intro hd hnz
    have hb : (caller == r.donor) = true := by simp [hd]
    constructor
    · simp [updateStatus, hr, hb, applyRevert, reject_foodItem, hf, hnz, updatedState]
    · rfl
  · intro hauth hzero
    have hnauth : (!(caller == r.receiver) && !(caller == r.donor)) = false := by
      rcases hauth with h | h <;> simp [h]
    constructor
    · simp [updateStatus, hr, hnauth, applyRevert, cancel_foodItem, hf, hzero, revertState]
    · show lookupFood (updateFood s.foods _ _) r.foodItem = _
      rw [show (Request.cancel r msg (some (if caller = r.donor then "donor" else "receiver")) now).foodItem = r.foodItem from rfl]
      rw [lookupFood_updateFood_self, hf]
      rfl
  · intro hauth hnz
    have hnauth : (!(caller == r.receiver) && !(caller == r.donor)) = false := by
      rcases hauth with h | h <;> simp [h]
    constructor
    · simp [updateStatus, hr, hnauth, applyRevert, cancel_foodItem, hf, hnz, updatedState]
    · rfl

/-- C4 witness: with two pending requests, the donor rejecting the first
and the receiver cancelling the second both leave the listing unchanged,
by the theorem applied at the concrete state. -/
theorem C4_witness :
    (findReq c4state.requests 0 = some c4reqA ∧
      lookupFood c4state.foods c4reqA.foodItem = some c4food ∧
      (30 : Nat) = c4reqA.donor ∧
      activeCountL (setReq c4state.requests 0 (Request.reject c4reqA none 1)) c4reqA.foodItem ≠ 0) ∧
    updateStatus c4state 30 0 "rejected" none 1 =
      (updatedState c4state 0 (Request.reject c4reqA none 1), ApiOut.ok 200) ∧
    ((21 : Nat) = c4reqB.receiver ∧
      activeCountL (setReq c4state.requests 1 (Request.cancel c4reqB none (some (if (21 : Nat) = c4reqB.donor then "donor" else "receiver")) 2)) c4reqB.foodItem ≠ 0) ∧
    updateStatus c4state 21 1 "cancelled" none 2 =
      (updatedState c4state 1 (Request.cancel c4reqB none (some (if (21 : Nat) = c4reqB.donor then "donor" else "receiver")) 2), ApiOut.ok 200) :=
  ⟨⟨by decide, by decide, by decide, by decide⟩,
   ((C4_theorem c4state 30 0 none 1 c4reqA c4food (by decide) (by decide)).2.1
      (by decide) (by decide)).1,
   ⟨by decide, by decide⟩,
   ((C4_theorem c4state 21 1 none 2 c4reqB c4food (by decide) (by decide)).2.2.2.1
      (Or.inr (by decide)) (by decide)).1⟩

/-- C10 witness: user 9, not a participant of the chat between 1 and 2,
sends into it successfully. -/
theorem C10_witness :
    (findChat c10state.chats 1 = some c10chat ∧
      Chat.isParticipant c10chat c10intruder.id = false ∧
      chatOkB c10chat = true ∧
      msgValid (mkSockMsg c10intruder.id "intruder" 7) = true) ∧
    sendMessage c10state c10intruder 1 "intruder" 2 7 =
      (sendFoundState c10state 1 c10chat (mkSockMsg c10intruder.id "intruder" 7),
       [SockEvent.newMessage 1 1 c10intruder.id c10intruder.name c10intruder.avatar "intruder" 7,
        SockEvent.messageNotification 2 1 c10intruder.name (jsTake 50 "intruder")]) ∧
    (appendMsgChat c10chat (mkSockMsg c10intruder.id "intruder" 7)).unreadCount =
      c10chat.unreadCount :=
  ⟨⟨by decide, by decide, by decide, by decide⟩,
   (C10_theorem c10state c10intruder 1 "intruder" 2 7 c10chat (by decide) (by decide)
      (by decide) (by decide)).1,
   (C10_theorem c10state c10intruder 1 "intruder" 2 7 c10chat (by decide) (by decide)
      (by decide) (by decide)).2.1⟩

end FoodShare
